/-
Verification of the asset-synchronization pipeline of the kcdevice repository.

The embedding covers the two synchronization scripts:
  * upload_web_files_http.py  (HTTP path: scan, probe, per-file PUT loop)
  * upload_web_files.py       (USB path: scan, capacity check, build, flash)

File contents are byte lists (`List Nat`, each entry < 256 for real inputs);
decoded text is a list of Unicode code points.  The Python scripts read files
with `open(path, 'r', encoding='utf-8')`, i.e. a strict UTF-8 decode followed
by universal-newline translation, and upload `content.encode('utf-8')`.
-/
import Mathlib

/-- A byte is a UTF-8 continuation byte (`0x80 ≤ b < 0xC0`). -/
def isCont (b : Nat) : Bool := decide (0x80 ≤ b ∧ b < 0xC0)

/-- Strict UTF-8 decoding of a byte list into code points, as performed by
Python's `utf-8` codec in strict mode: `none` on any malformed sequence
(stray continuation byte, overlong encoding, surrogate, value above
U+10FFFF, truncated sequence, or lead byte `0xF5`..`0xFF`). -/
def decodeUtf8 : List Nat → Option (List Nat)
  | [] => some []
  | b0 :: rest =>
    if b0 < 0x80 then
      (decodeUtf8 rest).map (fun cs => b0 :: cs)
    else if b0 < 0xC2 then
      none
    else if b0 < 0xE0 then
      match rest with
      | b1 :: rest2 =>
        if isCont b1 then
          (decodeUtf8 rest2).map (fun cs => ((b0 - 0xC0) * 64 + (b1 - 0x80)) :: cs)
        else none
      | [] => none
    else if b0 < 0xF0 then
      match rest with
      | b1 :: b2 :: rest3 =>
        let cp := (b0 - 0xE0) * 4096 + (b1 - 0x80) * 64 + (b2 - 0x80)
        if isCont b1 ∧ isCont b2 ∧ 0x800 ≤ cp ∧ (cp < 0xD800 ∨ 0xDFFF < cp) then
          (decodeUtf8 rest3).map (fun cs => cp :: cs)
        else none
      | _ => none
    else if b0 < 0xF5 then
      match rest with
      | b1 :: b2 :: b3 :: rest4 =>
        let cp := (b0 - 0xF0) * 262144 + (b1 - 0x80) * 4096 + (b2 - 0x80) * 64 + (b3 - 0x80)
        if isCont b1 ∧ isCont b2 ∧ isCont b3 ∧ 0x10000 ≤ cp ∧ cp ≤ 0x10FFFF then
          (decodeUtf8 rest4).map (fun cs => cp :: cs)
        else none
      | _ => none
    else none

/-- Universal-newline translation on code points, as performed by Python
text mode with the default `newline=None`: `\r\n` and lone `\r` both
become `\n` (code points 13, 10). -/
def univNewlines : List Nat → List Nat
  | [] => []
  | 13 :: 10 :: rest => 10 :: univNewlines rest
  | 13 :: rest => 10 :: univNewlines rest
  | c :: rest => c :: univNewlines rest

/-- UTF-8 encoding of a single code point (assumed scalar, ≤ U+10FFFF). -/
def encodeChar (c : Nat) : List Nat :=
  if c < 0x80 then [c]
  else if c < 0x800 then [0xC0 + c / 64, 0x80 + c % 64]
  else if c < 0x10000 then
    [0xE0 + c / 4096, 0x80 + (c / 64) % 64, 0x80 + c % 64]
  else
    [0xF0 + c / 262144, 0x80 + (c / 4096) % 64, 0x80 + (c / 64) % 64, 0x80 + c % 64]

/-- UTF-8 encoding of a code-point list (`str.encode('utf-8')`). -/
def encodeUtf8 : List Nat → List Nat
  | [] => []
  | c :: cs => encodeChar c ++ encodeUtf8 cs

example : decodeUtf8 [104, 105, 13, 10] = some [104, 105, 13, 10] := by decide
example : decodeUtf8 [255] = none := by decide
example : univNewlines [104, 13, 10, 105, 13, 106] = [104, 10, 105, 10, 106] := by decide
example : encodeUtf8 [104, 955] = [104, 0xCE, 0xBB] := by decide

/-! ## Data model (§3 of the spec, from the two scripts) -/

/-- One scanned asset: `(filename, filepath, size)` tuple built at
`upload_web_files_http.py:48` / `upload_web_files.py:60`. -/
structure AssetRecord where
  name : String
  path : String
  sizeBytes : Nat
deriving DecidableEq, Repr

/-- Outcome of one per-file upload attempt. -/
structure UploadOutcome where
  assetName : String
  succeeded : Bool
deriving DecidableEq, Repr

/-- Terminal summary of an HTTP run: the `success_count` / `fail_count`
counters of `upload_web_files_http.py:87-88` plus the ordered outcomes. -/
structure SyncSummary where
  successCount : Nat
  failureCount : Nat
  outcomes : List UploadOutcome
deriving DecidableEq, Repr

/-- Fatal abort causes of the HTTP script (`sys.exit(1)` sites after
argument parsing). -/
inductive RunError where
  | DirectoryNotFound
  | NoWebFiles
  | LivenessCheckFailed
deriving DecidableEq, Repr

/-- The fixed asset directory `os.path.join("main", "web")`. -/
def webDir : String := "main/web"

/-- Python's `s.endswith(t)`: `t` is a suffix of `s`, compared code point by
code point. -/
def strEndsWith (s t : String) : Bool :=
  decide (List.drop (s.data.length - t.data.length) s.data = t.data)

/-- `filename.endswith(('.html', '.js', '.css'))`
(`upload_web_files_http.py:45`, `upload_web_files.py:57`). -/
def hasWebExt (n : String) : Bool :=
  strEndsWith n ".html" || strEndsWith n ".js" || strEndsWith n ".css"

/-- The scan loop shared by both scripts: keep each listed filename with a
web extension, pair it with its path and its filesystem size. -/
def scanListing (listing : List String) (size : String → Nat) : List AssetRecord :=
  (listing.filter hasWebExt).map
    (fun n => { name := n, path := webDir ++ "/" ++ n, sizeBytes := size (webDir ++ "/" ++ n) })

/-! ## Local filesystem and network environment -/

/-- The filesystem as the scripts observe it: whether `main/web` exists,
the directory listing (in `os.listdir` order), sizes by path, and raw file
bytes by path (`none` when the file cannot be opened). -/
structure Fs where
  dirExists : Bool
  listing : List String
  size : String → Nat
  content : String → Option (List Nat)

/-- Result of the liveness probe `requests.get(.../api/status, timeout=5)`:
either an HTTP response with some status code, or a raised exception
(connection error or timeout). -/
inductive ProbeResult where
  | status (code : Nat)
  | failure
deriving DecidableEq, Repr

/-- Result of one `requests.put(...)`: an HTTP response or an exception. -/
inductive PutResult where
  | status (code : Nat)
  | failure
deriving DecidableEq, Repr

/-- Network oracle: the probe outcome and, per filename, the PUT outcome. -/
structure Net where
  probe : ProbeResult
  put : String → PutResult

/-- A network request issued by the script, with its timeout in seconds. -/
inductive NetRequest where
  | get (url : String) (timeoutSec : Nat)
  | put (url : String) (body : List Nat) (contentType : String) (timeoutSec : Nat)
deriving DecidableEq, Repr

/-- `true` exactly on PUT (write) requests. -/
def NetRequest.isPut : NetRequest → Bool
  | NetRequest.put _ _ _ _ => true
  | _ => false

/-- `open(filepath, 'r', encoding='utf-8').read()`: raw bytes, strict UTF-8
decode, universal-newline translation; `none` when the open or the decode
raises. -/
def pythonReadText (fs : Fs) (path : String) : Option (List Nat) :=
  (fs.content path).bind (fun bs => (decodeUtf8 bs).map univNewlines)

/-! ## HTTP pipeline (`upload_web_files_http.py`, function `main`) -/

/-- One iteration of the upload loop (`upload_web_files_http.py:90-118`):
read the file as UTF-8 text; on a read error record a failure and issue no
request; otherwise PUT the re-encoded text to `/api/webfiles/{filename}`
with a 10-second timeout and classify success as status code 200. -/
def uploadOne (host : String) (fs : Fs) (net : Net) (r : AssetRecord) :
    List NetRequest × UploadOutcome :=
  match pythonReadText fs r.path with
  | none => ([], { assetName := r.name, succeeded := false })
  | some text =>
    let req := NetRequest.put ("https://" ++ host ++ "/api/webfiles/" ++ r.name)
      (encodeUtf8 text) "text/plain; charset=utf-8" 10
    match net.put r.name with
    | PutResult.status c => ([req], { assetName := r.name, succeeded := decide (c = 200) })
    | PutResult.failure => ([req], { assetName := r.name, succeeded := false })

/-- The upload loop over the whole manifest, collecting the requests issued
and the per-file outcomes in manifest order. -/
def uploadAll (host : String) (fs : Fs) (net : Net) :
    List AssetRecord → List NetRequest × List UploadOutcome
  | [] => ([], [])
  | r :: rs =>
    let first := uploadOne host fs net r
    let rest := uploadAll host fs net rs
    (first.1 ++ rest.1, first.2 :: rest.2)

/-- `main` of `upload_web_files_http.py` for a given host argument, as a
function of the filesystem and the network: returns the full ordered trace
of network requests issued together with either a fatal error or the final
summary.  Mirrors the source order: directory check (line 38), scan
(lines 43-48), empty check (line 50), liveness probe (lines 69-83; note a
non-200 response only prints a warning and the run continues, while an
exception exits), then the upload loop (lines 90-118). -/
def runHttp (host : String) (fs : Fs) (net : Net) :
    List NetRequest × Except RunError SyncSummary :=
  if fs.dirExists = false then
    ([], Except.error RunError.DirectoryNotFound)
  else
    let files := scanListing fs.listing fs.size
    if files.isEmpty then
      ([], Except.error RunError.NoWebFiles)
    else
      let probeReq := NetRequest.get ("https://" ++ host ++ "/api/status") 5
      match net.probe with
      | ProbeResult.failure => ([probeReq], Except.error RunError.LivenessCheckFailed)
      | ProbeResult.status _ =>
        let res := uploadAll host fs net files
        (probeReq :: res.1,
         Except.ok
          { successCount := res.2.countP (fun o => o.succeeded)
            failureCount := res.2.countP (fun o => !o.succeeded)
            outcomes := res.2 })

/-! ## Capacity validator (`upload_web_files.py:74-77`) -/

/-- `partition_size = 1048576  # 1MB` (`upload_web_files.py:75`). -/
def partition_size : Nat := 1048576

/-- The IEEE-754 double nearest to 0.9, as a numerator over `2 ^ 53`:
the Python literal `0.9` denotes exactly `flNine / 2 ^ 53`. -/
def flNine : Nat := 8106479329266893

/-- The check `total_size > partition_size * 0.9` (`upload_web_files.py:76`),
carried out exactly: `partition_size` is `2 ^ 20`, so the double product
`partition_size * 0.9` is exactly `partition_size * flNine / 2 ^ 53` (a
power-of-two scaling is exact), and Python compares the integer
`total_size` with that value exactly.  Clearing the denominator gives the
integer comparison below. -/
def capacityWarning (total : Nat) : Bool :=
  decide (total * 2 ^ 53 > partition_size * flNine)

/-- `total_size`: sum of the scanned sizes (`upload_web_files.py:67-70`). -/
def aggregateSize (m : List AssetRecord) : Nat :=
  (m.map AssetRecord.sizeBytes).sum

/-- The spec's CapacityVerdict record (§3). -/
structure CapacityVerdict where
  aggregateSizeBytes : Nat
  partitionBudgetBytes : Nat
  warning : Bool
deriving DecidableEq, Repr

/-- `evaluate(manifest) -> CapacityVerdict` (§4.2), from the source's
aggregate-size accumulation and 90%-of-budget threshold check. -/
def evaluate (m : List AssetRecord) : CapacityVerdict :=
  { aggregateSizeBytes := aggregateSize m
    partitionBudgetBytes := partition_size
    warning := capacityWarning (aggregateSize m) }

/-! ## USB pipeline (`upload_web_files.py`, function `main`) -/

/-- An external-process invocation made by the USB script: the build step or
the flash step, each a `powershell.exe ./build.ps1` call. -/
inductive UsbAction where
  | build (target : String)
  | flash (target : String) (port : String)
deriving DecidableEq, Repr

/-- Fatal abort causes of the USB script. -/
inductive UsbError where
  | BadArgs
  | BadTarget
  | DirectoryNotFound
  | NoWebFiles
  | BuildFailed
  | FlashFailed
deriving DecidableEq, Repr

/-- Environment of one USB run: parsed arguments, filesystem view, the
operator's answer to the C6 confirmation prompt, and the exit codes the two
external build/flash invocations would return. -/
structure UsbEnv where
  target : Option String
  port : Option String
  dirExists : Bool
  listing : List String
  size : String → Nat
  c6Answer : String
  buildExit : Int
  flashExit : Int

/-- Result of one USB run: the external invocations performed, whether the
capacity warning line was printed, and the outcome (`Except.ok true` =
completed, `Except.ok false` = operator cancelled at the C6 prompt). -/
structure UsbResult where
  actions : List UsbAction
  warningShown : Bool
  outcome : Except UsbError Bool
deriving Repr

/-- `main` of `upload_web_files.py` with the capacity verdict passed
explicitly (the caller wires in `evaluate` of the scanned manifest; keeping
it a parameter makes the advisory-only role provable).  Mirrors the source
order: argument checks (lines 39-46), directory check (line 50), scan
(lines 55-60), empty check (line 62), capacity warning print (lines 74-77),
C6 confirmation prompt (lines 85-92), build step (lines 96-107), flash step
(lines 112-123). -/
def runUsbWith (env : UsbEnv) (v : CapacityVerdict) : UsbResult :=
  match env.target, env.port with
  | none, _ => { actions := [], warningShown := false, outcome := Except.error UsbError.BadArgs }
  | _, none => { actions := [], warningShown := false, outcome := Except.error UsbError.BadArgs }
  | some target, some port =>
    if target ≠ "c6" ∧ target ≠ "s3" then
      { actions := [], warningShown := false, outcome := Except.error UsbError.BadTarget }
    else if env.dirExists = false then
      { actions := [], warningShown := false, outcome := Except.error UsbError.DirectoryNotFound }
    else if (scanListing env.listing env.size).isEmpty then
      { actions := [], warningShown := false, outcome := Except.error UsbError.NoWebFiles }
    else if target = "c6" ∧ env.c6Answer.toLower ≠ "y" then
      { actions := [], warningShown := v.warning, outcome := Except.ok false }
    else if env.buildExit ≠ 0 then
      { actions := [UsbAction.build target], warningShown := v.warning
        outcome := Except.error UsbError.BuildFailed }
    else if env.flashExit ≠ 0 then
      { actions := [UsbAction.build target, UsbAction.flash target port]
        warningShown := v.warning, outcome := Except.error UsbError.FlashFailed }
    else
      { actions := [UsbAction.build target, UsbAction.flash target port]
        warningShown := v.warning, outcome := Except.ok true }

/-- `main` of `upload_web_files.py`: the verdict is computed by `evaluate`
on the scanned manifest. -/
def runUsb (env : UsbEnv) : UsbResult :=
  runUsbWith env (evaluate (scanListing env.listing env.size))

/-! ## Concrete environments used as witnesses and counterexamples -/

/-- One asset `a.html` whose raw bytes contain a CRLF pair. -/
def fsOne : Fs :=
  { dirExists := true
    listing := ["a.html"]
    size := fun _ => 4
    content := fun p => if p = "main/web/a.html" then some [104, 105, 13, 10] else none }

/-- A directory that exists but contains no web files. -/
def fsEmptyDir : Fs :=
  { dirExists := true, listing := [], size := fun _ => 0, content := fun _ => none }

/-- A missing `main/web` directory. -/
def fsNoDir : Fs :=
  { dirExists := false, listing := [], size := fun _ => 0, content := fun _ => none }

/-- Three ASCII assets for the partial-failure scenario. -/
def fs3 : Fs :=
  { dirExists := true
    listing := ["f1.html", "f2.js", "f3.css"]
    size := fun _ => 1
    content := fun p =>
      if p = "main/web/f1.html" then some [97]
      else if p = "main/web/f2.js" then some [98]
      else if p = "main/web/f3.css" then some [99]
      else none }

/-- A first asset that is not valid UTF-8 (`0xFF` byte) followed by a
readable one. -/
def fsBadUtf8 : Fs :=
  { dirExists := true
    listing := ["bad.js", "ok.css"]
    size := fun _ => 1
    content := fun p =>
      if p = "main/web/bad.js" then some [255]
      else if p = "main/web/ok.css" then some [97]
      else none }

/-- Endpoint whose liveness probe answers HTTP 500 but accepts uploads. -/
def netStatus500 : Net :=
  { probe := ProbeResult.status 500, put := fun _ => PutResult.status 200 }

/-- Healthy endpoint accepting every upload. -/
def netLive : Net :=
  { probe := ProbeResult.status 200, put := fun _ => PutResult.status 200 }

/-- Endpoint whose liveness probe raises (unreachable or timed out). -/
def netDown : Net :=
  { probe := ProbeResult.failure, put := fun _ => PutResult.status 200 }

/-- Healthy endpoint that answers 500 to the upload of `f2.js` only. -/
def net500on2 : Net :=
  { probe := ProbeResult.status 200
    put := fun n => if n = "f2.js" then PutResult.status 500 else PutResult.status 200 }

/-! ## Helper lemmas -/

/-- The upload loop is the pointwise per-file step: requests are the
concatenation of each file's requests, outcomes are collected in order. -/
theorem uploadAll_eq (host : String) (fs : Fs) (net : Net) (files : List AssetRecord) :
    uploadAll host fs net files =
      ((files.map (fun r => (uploadOne host fs net r).1)).flatten,
       files.map (fun r => (uploadOne host fs net r).2)) := by
  induction files with
  | nil => rfl
  | cons r rs ih => simp [uploadAll, ih]

/-- The outcome of one upload attempt always carries the asset's name. -/
theorem uploadOne_name (host : String) (fs : Fs) (net : Net) (r : AssetRecord) :
    (uploadOne host fs net r).2.assetName = r.name := by
  unfold uploadOne
  cases pythonReadText fs r.path with
  | none => rfl
  | some text => cases net.put r.name <;> rfl

/-- An upload attempt succeeds exactly when the file was readable as UTF-8
text and the PUT came back with HTTP status 200. -/
theorem uploadOne_succeeded (host : String) (fs : Fs) (net : Net) (r : AssetRecord) :
    ((uploadOne host fs net r).2.succeeded = true ↔
      (pythonReadText fs r.path).isSome = true ∧ net.put r.name = PutResult.status 200) := by
  unfold uploadOne
  cases hr : pythonReadText fs r.path with
  | none => simp
  | some text =>
    cases hq : net.put r.name with
    | status c => simp_all
    | failure => simp_all

/-- An upload attempt issues one PUT when the file is readable and none
otherwise. -/
theorem uploadOne_reqs (host : String) (fs : Fs) (net : Net) (r : AssetRecord) :
    (uploadOne host fs net r).1 =
      match pythonReadText fs r.path with
      | none => []
      | some text =>
        [NetRequest.put ("https://" ++ host ++ "/api/webfiles/" ++ r.name)
          (encodeUtf8 text) "text/plain; charset=utf-8" 10] := by
  unfold uploadOne
  cases pythonReadText fs r.path with
  | none => rfl
  | some text => cases net.put r.name <;> rfl

/-- Under a live probe the run reaches the upload loop: the trace is the
probe request followed by the per-file requests, and the summary collects
the per-file outcomes with the two counters. -/
theorem runHttp_ok (host : String) (fs : Fs) (net : Net) (c : Nat)
    (hdir : fs.dirExists = true)
    (hne : (scanListing fs.listing fs.size).isEmpty = false)
    (hp : net.probe = ProbeResult.status c) :
    runHttp host fs net =
      (NetRequest.get ("https://" ++ host ++ "/api/status") 5 ::
        ((scanListing fs.listing fs.size).map (fun r => (uploadOne host fs net r).1)).flatten,
       Except.ok
        { successCount :=
            ((scanListing fs.listing fs.size).map
              (fun r => (uploadOne host fs net r).2)).countP (fun o => o.succeeded)
          failureCount :=
            ((scanListing fs.listing fs.size).map
              (fun r => (uploadOne host fs net r).2)).countP (fun o => !o.succeeded)
          outcomes :=
            (scanListing fs.listing fs.size).map (fun r => (uploadOne host fs net r).2) }) := by
  unfold runHttp
  rw [hdir, hp]
  simp only [hne, Bool.false_eq_true, if_false, uploadAll_eq]
  rw [if_neg (by simp)]

/-- The number of PUT requests in the upload loop equals the number of
files that were readable as UTF-8 text: one attempt per readable file. -/
theorem countPut_uploads (host : String) (fs : Fs) (net : Net) (files : List AssetRecord) :
    ((files.map (fun r => (uploadOne host fs net r).1)).flatten).countP NetRequest.isPut =
      (files.filter (fun r => (pythonReadText fs r.path).isSome)).length := by
  induction files with
  | nil => rfl
  | cons r rs ih =>
    rw [List.map_cons, List.flatten_cons, List.countP_append, ih]
    rw [uploadOne_reqs]
    cases hr : pythonReadText fs r.path with
    | none => simp [List.filter_cons, hr]
    | some text => simp [List.filter_cons, hr, NetRequest.isPut, Nat.add_comm]

/-- Counting successes and failures partitions a list of outcomes. -/
theorem countP_succ_add_fail (l : List UploadOutcome) :
    l.countP (fun o => o.succeeded) + l.countP (fun o => !o.succeeded) = l.length := by
  induction l with
  | nil => rfl
  | cons o t ih =>
    rw [List.countP_cons, List.countP_cons]
    cases h : o.succeeded <;> simp [h] <;> omega

/-- Occurrences of a name in a filtered listing: the full count when the
name passes the filter, zero otherwise. -/
theorem countP_filter_eq (q : String → Bool) (n : String) (l : List String) :
    (l.filter q).countP (fun m => decide (m = n)) =
      if q n then l.countP (fun m => decide (m = n)) else 0 := by
  induction l with
  | nil => simp
  | cons m t ih =>
    by_cases hm : m = n
    · subst hm
      cases hq : q m <;> simp [List.filter_cons, hq, List.countP_cons, ih]
    · cases hq : q m <;> simp [List.filter_cons, hq, List.countP_cons, hm, ih]

/-! ## Claims -/

/-- C1 (amended): when the liveness probe raises (connection error or
5-second timeout, so no HTTP response at all), the run aborts with the
liveness failure before any upload: the only request in the trace is the
5-second `GET /api/status`, zero PUT attempts are made, and no
UploadOutcome is produced (the result is an error, not a summary).  The
original claim is corrected because a probe that does return a non-200
HTTP status only prints a warning and the run proceeds (see the
counterexample). -/
theorem probe_exception_aborts (host : String) (fs : Fs) (net : Net)
    (hdir : fs.dirExists = true)
    (hne : (scanListing fs.listing fs.size).isEmpty = false)
    (hp : net.probe = ProbeResult.failure) :
    (runHttp host fs net).2 = Except.error RunError.LivenessCheckFailed ∧
    (runHttp host fs net).1 = [NetRequest.get ("https://" ++ host ++ "/api/status") 5] ∧
    (runHttp host fs net).1.countP NetRequest.isPut = 0 := by
  have h : runHttp host fs net =
      ([NetRequest.get ("https://" ++ host ++ "/api/status") 5],
       Except.error RunError.LivenessCheckFailed) := by
    unfold runHttp
    rw [hdir, hp]
    simp [hne]
  exact ⟨by rw [h], by rw [h], by rw [h]; rfl⟩

/-- C1 witness: a concrete run against an unreachable endpoint aborts with
`LivenessCheckFailed` having issued only the probe request. -/
theorem probe_exception_aborts_witness :
    fsOne.dirExists = true ∧
    (scanListing fsOne.listing fsOne.size).isEmpty = false ∧
    netDown.probe = ProbeResult.failure ∧
    ((runHttp "h" fsOne netDown).2 = Except.error RunError.LivenessCheckFailed ∧
     (runHttp "h" fsOne netDown).1 = [NetRequest.get ("https://" ++ "h" ++ "/api/status") 5] ∧
     (runHttp "h" fsOne netDown).1.countP NetRequest.isPut = 0) :=
  ⟨rfl, rfl, rfl, probe_exception_aborts "h" fsOne netDown rfl rfl rfl⟩

/-- C1 counterexample: a probe answered with HTTP 500 — a non-success
indicator — does not make the run fail with `LivenessCheckFailed`: the run
proceeds, produces an UploadOutcome and performs a PUT, contradicting the
claim as stated. -/
theorem probe_non200_not_fatal :
    netStatus500.probe = ProbeResult.status 500 ∧ (500 : Nat) ≠ 200 ∧
    (runHttp "h" fsOne netStatus500).2 =
      Except.ok { successCount := 1
                  failureCount := 0
                  outcomes := [{ assetName := "a.html", succeeded := true }] } ∧
    (runHttp "h" fsOne netStatus500).1.countP NetRequest.isPut = 1 := by
  exact ⟨rfl, by decide, rfl, rfl⟩

/-- C2 (amended): when the scan of the asset directory finds no web files,
the run aborts with a fatal no-web-files error before any network activity
(empty request trace); no summary (and in particular no successCount=0,
failureCount=0 summary) is produced.  The original claim is corrected: the
code treats an empty manifest as an error (`sys.exit(1)`), not as an
immediately completed run. -/
theorem empty_scan_aborts (host : String) (fs : Fs) (net : Net)
    (hdir : fs.dirExists = true)
    (he : (scanListing fs.listing fs.size).isEmpty = true) :
    runHttp host fs net = ([], Except.error RunError.NoWebFiles) := by
  unfold runHttp
  rw [hdir]
  simp [he]

/-- C2 witness: the concrete empty directory aborts with the no-web-files
error and an empty network trace. -/
theorem empty_scan_aborts_witness :
    fsEmptyDir.dirExists = true ∧
    (scanListing fsEmptyDir.listing fsEmptyDir.size).isEmpty = true ∧
    runHttp "h" fsEmptyDir netLive = ([], Except.error RunError.NoWebFiles) :=
  ⟨rfl, rfl, empty_scan_aborts "h" fsEmptyDir netLive rfl rfl⟩

/-- C2 counterexample: for an empty asset directory the run result is the
fatal `NoWebFiles` error and no summary exists (`toOption = none`),
contradicting the claim that the run completes with successCount=0 and
failureCount=0. -/
theorem empty_dir_is_error :
    runHttp "h" fsEmptyDir netLive = ([], Except.error RunError.NoWebFiles) ∧
    (runHttp "h" fsEmptyDir netLive).2.toOption = none := by
  exact ⟨rfl, rfl⟩

/-- C3: per-file failures do not short-circuit the run.  Under a live
probe the summary contains one outcome per manifest record, each record's
outcome depends only on its own read and PUT result (success iff the file
was readable and the PUT returned HTTP 200 — any other status, transport
error or timeout is a recorded failure), and in the concrete 3-file
scenario where file 2 is answered 500 the summary is successCount=2,
failureCount=1 with files 1 and 3 succeeded. -/
theorem per_file_failure_continues (host : String) (fs : Fs) (net : Net) (c : Nat)
    (hdir : fs.dirExists = true)
    (hne : (scanListing fs.listing fs.size).isEmpty = false)
    (hp : net.probe = ProbeResult.status c) :
    (∃ s, (runHttp host fs net).2 = Except.ok s ∧
      s.outcomes = (scanListing fs.listing fs.size).map (fun r => (uploadOne host fs net r).2) ∧
      (∀ r, ((uploadOne host fs net r).2.succeeded = true ↔
        (pythonReadText fs r.path).isSome = true ∧ net.put r.name = PutResult.status 200))) ∧
    (runHttp "h" fs3 net500on2).2 = Except.ok
      { successCount := 2
        failureCount := 1
        outcomes := [{ assetName := "f1.html", succeeded := true },
                     { assetName := "f2.js", succeeded := false },
                     { assetName := "f3.css", succeeded := true }] } := by
  refine ⟨⟨_, congrArg Prod.snd (runHttp_ok host fs net c hdir hne hp), rfl,
    fun r => uploadOne_succeeded host fs net r⟩, by rfl⟩

/-- C3 witness: the concrete 3-file run with file 2 answered 500. -/
theorem per_file_failure_continues_witness :
    fs3.dirExists = true ∧
    (scanListing fs3.listing fs3.size).isEmpty = false ∧
    net500on2.probe = ProbeResult.status 200 ∧
    (runHttp "h" fs3 net500on2).2 = Except.ok
      { successCount := 2
        failureCount := 1
        outcomes := [{ assetName := "f1.html", succeeded := true },
                     { assetName := "f2.js", succeeded := false },
                     { assetName := "f3.css", succeeded := true }] } :=
  ⟨rfl, rfl, rfl, (per_file_failure_continues "h" fs3 net500on2 200 rfl rfl rfl).2⟩

/-- C4: a completed run produces exactly one UploadOutcome per manifest
record, in manifest order (the outcome names are exactly the record names,
positionally), with successCount + failureCount = N, and the number of PUT
attempts equals the number of readable files — one attempt each, no
skips, no duplicates, no retries. -/
theorem run_outcome_bijection (host : String) (fs : Fs) (net : Net) (c : Nat)
    (hdir : fs.dirExists = true)
    (hne : (scanListing fs.listing fs.size).isEmpty = false)
    (hp : net.probe = ProbeResult.status c) :
    ∃ s, (runHttp host fs net).2 = Except.ok s ∧
      s.outcomes.map UploadOutcome.assetName =
        (scanListing fs.listing fs.size).map AssetRecord.name ∧
      s.outcomes.length = (scanListing fs.listing fs.size).length ∧
      s.successCount + s.failureCount = (scanListing fs.listing fs.size).length ∧
      (runHttp host fs net).1.countP NetRequest.isPut =
        ((scanListing fs.listing fs.size).filter
          (fun r => (pythonReadText fs r.path).isSome)).length := by
  have h := runHttp_ok host fs net c hdir hne hp
  refine ⟨_, congrArg Prod.snd h, ?_, ?_, ?_, ?_⟩
  · dsimp only
    rw [List.map_map]
    exact List.map_congr_left (fun r _ => uploadOne_name host fs net r)
  · simp
  · have h2 := countP_succ_add_fail
      ((scanListing fs.listing fs.size).map (fun r => (uploadOne host fs net r).2))
    simpa using h2
  · rw [congrArg Prod.fst h, List.countP_cons, countPut_uploads]
    simp [NetRequest.isPut]

/-- C4 witness: the bijection and count properties hold on the concrete
3-file run. -/
theorem run_outcome_bijection_witness :
    fs3.dirExists = true ∧
    (scanListing fs3.listing fs3.size).isEmpty = false ∧
    net500on2.probe = ProbeResult.status 200 ∧
    (∃ s, (runHttp "h" fs3 net500on2).2 = Except.ok s ∧
      s.outcomes.map UploadOutcome.assetName =
        (scanListing fs3.listing fs3.size).map AssetRecord.name ∧
      s.outcomes.length = (scanListing fs3.listing fs3.size).length ∧
      s.successCount + s.failureCount = (scanListing fs3.listing fs3.size).length ∧
      (runHttp "h" fs3 net500on2).1.countP NetRequest.isPut =
        ((scanListing fs3.listing fs3.size).filter
          (fun r => (pythonReadText fs3 r.path).isSome)).length) :=
  ⟨rfl, rfl, rfl, run_outcome_bijection "h" fs3 net500on2 200 rfl rfl rfl⟩

/-- C5: the capacity verdict warns exactly when the aggregate manifest
size strictly exceeds 90% of the 1 MiB partition budget.  The source
compares against the double `partition_size * 0.9`; since the budget is a
power of two the comparison is exact, and for integers it coincides with
the exact rational threshold `0.90 * 1048576`. -/
theorem evaluate_warning_iff (m : List AssetRecord) :
    ((evaluate m).warning = true ↔ 10 * aggregateSize m > 9 * 1048576) := by
  show (capacityWarning (aggregateSize m) = true ↔ _)
  unfold capacityWarning partition_size flNine
  rw [decide_eq_true_iff]
  have h53 : (2 : Nat) ^ 53 = 9007199254740992 := by norm_num
  rw [h53]
  omega

/-- C6 (amended): for every manifest asset whose file is readable as UTF-8
text, the executor issues exactly one PUT to
`https://{host}/api/webfiles/{name}` with header
`Content-Type: text/plain; charset=utf-8`, a 10-second timeout and success
classified as HTTP 200; the body is the UTF-8 re-encoding of the decoded
text after universal-newline translation — equal to the raw file bytes
only when they contain no carriage returns (see the counterexample); the
full trace is the probe followed by these per-file requests.  The original
claim's "body equal to the raw file bytes" is corrected. -/
theorem put_request_shape (host : String) (fs : Fs) (net : Net) (c : Nat)
    (r : AssetRecord) (text : List Nat)
    (hdir : fs.dirExists = true)
    (hne : (scanListing fs.listing fs.size).isEmpty = false)
    (hp : net.probe = ProbeResult.status c)
    (hr : r ∈ scanListing fs.listing fs.size)
    (ht : pythonReadText fs r.path = some text) :
    (uploadOne host fs net r).1 =
      [NetRequest.put ("https://" ++ host ++ "/api/webfiles/" ++ r.name)
        (encodeUtf8 text) "text/plain; charset=utf-8" 10] ∧
    ((uploadOne host fs net r).2.succeeded = true ↔ net.put r.name = PutResult.status 200) ∧
    (runHttp host fs net).1 =
      NetRequest.get ("https://" ++ host ++ "/api/status") 5 ::
        ((scanListing fs.listing fs.size).map (fun r => (uploadOne host fs net r).1)).flatten := by
  refine ⟨?_, ?_, congrArg Prod.fst (runHttp_ok host fs net c hdir hne hp)⟩
  · rw [uploadOne_reqs, ht]
  · have hs := uploadOne_succeeded host fs net r
    rw [ht] at hs
    simpa using hs

/-- C6 witness: the concrete CRLF file produces exactly one PUT carrying
the newline-translated re-encoded body. -/
theorem put_request_shape_witness :
    pythonReadText fsOne "main/web/a.html" = some [104, 105, 10] ∧
    (uploadOne "h" fsOne netLive
        { name := "a.html", path := "main/web/a.html", sizeBytes := 4 }).1 =
      [NetRequest.put ("https://" ++ "h" ++ "/api/webfiles/" ++ "a.html")
        (encodeUtf8 [104, 105, 10]) "text/plain; charset=utf-8" 10] :=
  ⟨rfl, (put_request_shape "h" fsOne netLive 200
      { name := "a.html", path := "main/web/a.html", sizeBytes := 4 } [104, 105, 10]
      rfl rfl rfl (by decide) rfl).1⟩

/-- C6 counterexample: a file whose raw bytes are `[104, 105, 13, 10]`
(text "hi" followed by CRLF) is uploaded with body `[104, 105, 10]` — the
CRLF became LF because the file is read in text mode — so the PUT body is
not the raw file bytes. -/
theorem put_body_not_raw_bytes :
    fsOne.content "main/web/a.html" = some [104, 105, 13, 10] ∧
    (runHttp "h" fsOne netLive).1 =
      [NetRequest.get "https://h/api/status" 5,
       NetRequest.put "https://h/api/webfiles/a.html" [104, 105, 10]
         "text/plain; charset=utf-8" 10] ∧
    ([104, 105, 10] : List Nat) ≠ [104, 105, 13, 10] := by
  exact ⟨rfl, by decide, by decide⟩

/-- C7: the manifest produced by the scan contains exactly one AssetRecord
per listed filename ending in ".html", ".js" or ".css" (counted with
multiplicity: the records' names are exactly the filtered listing, and for
any name the number of records equals its number of occurrences in the
listing when it has a web extension and is zero otherwise — every other
file appears in no record). -/
theorem scan_inventory_exact (listing : List String) (size : String → Nat) (n : String) :
    ((scanListing listing size).map AssetRecord.name = listing.filter hasWebExt) ∧
    ((scanListing listing size).countP (fun r => decide (r.name = n)) =
      if strEndsWith n ".html" || strEndsWith n ".js" || strEndsWith n ".css" then
        listing.countP (fun m => decide (m = n))
      else 0) := by
  constructor
  · rw [scanListing, List.map_map]
    have hid : (AssetRecord.name ∘ fun nm =>
        ({ name := nm, path := webDir ++ "/" ++ nm,
           sizeBytes := size (webDir ++ "/" ++ nm) } : AssetRecord)) = id := rfl
    rw [hid, List.map_id]
  · rw [scanListing, List.countP_map]
    exact countP_filter_eq hasWebExt n listing

/-- C8: a missing asset directory aborts the run with `DirectoryNotFound`
and an empty network trace — no liveness probe and no upload request is
ever issued. -/
theorem missing_dir_aborts (host : String) (fs : Fs) (net : Net)
    (h : fs.dirExists = false) :
    runHttp host fs net = ([], Except.error RunError.DirectoryNotFound) := by
  unfold runHttp
  rw [h]
  rfl

/-- C8 witness: the concrete missing directory aborts before any network
activity. -/
theorem missing_dir_aborts_witness :
    fsNoDir.dirExists = false ∧
    runHttp "h" fsNoDir netLive = ([], Except.error RunError.DirectoryNotFound) :=
  ⟨rfl, missing_dir_aborts "h" fsNoDir netLive rfl⟩

/-- C9: the capacity verdict is advisory and never blocks a sync: for any
two verdicts the pipeline performs the same external actions in the same
order and ends with the same outcome — the verdict only affects the
displayed warning line — and the actual run wires in `evaluate` of the
scanned manifest. -/
theorem verdict_advisory (env : UsbEnv) (v v' : CapacityVerdict) :
    (runUsbWith env v).actions = (runUsbWith env v').actions ∧
    (runUsbWith env v).outcome = (runUsbWith env v').outcome ∧
    runUsb env = runUsbWith env (evaluate (scanListing env.listing env.size)) := by
  refine ⟨?_, ?_, rfl⟩ <;>
    · unfold runUsbWith
      cases env.target <;> cases env.port <;> try rfl
      all_goals (dsimp only; split_ifs <;> rfl)

/-- C10: a file that cannot be opened or is not valid UTF-8 gets no PUT
request at all (its raw bytes are never sent), its outcome is recorded as
a failure, and the run still produces one outcome for every manifest
record — execution continues with the remaining files. -/
theorem unreadable_file_skipped (host : String) (fs : Fs) (net : Net) (c : Nat)
    (r : AssetRecord)
    (hdir : fs.dirExists = true)
    (hne : (scanListing fs.listing fs.size).isEmpty = false)
    (hp : net.probe = ProbeResult.status c)
    (hr : r ∈ scanListing fs.listing fs.size)
    (hnone : pythonReadText fs r.path = none) :
    (uploadOne host fs net r).1 = [] ∧
    (uploadOne host fs net r).2 = { assetName := r.name, succeeded := false } ∧
    ∃ s, (runHttp host fs net).2 = Except.ok s ∧
      s.outcomes.length = (scanListing fs.listing fs.size).length := by
  refine ⟨?_, ?_, _, congrArg Prod.snd (runHttp_ok host fs net c hdir hne hp), by simp⟩
  · rw [uploadOne_reqs, hnone]
  · unfold uploadOne
    rw [hnone]

/-- C10 witness: the concrete invalid-UTF-8 file `bad.js` (byte `0xFF`)
gets no PUT, a failure outcome, and the following file is still
attempted. -/
theorem unreadable_file_skipped_witness :
    pythonReadText fsBadUtf8 "main/web/bad.js" = none ∧
    (uploadOne "h" fsBadUtf8 netLive
        { name := "bad.js", path := "main/web/bad.js", sizeBytes := 1 }).1 = [] ∧
    (uploadOne "h" fsBadUtf8 netLive
        { name := "bad.js", path := "main/web/bad.js", sizeBytes := 1 }).2 =
      { assetName := "bad.js", succeeded := false } ∧
    (∃ s, (runHttp "h" fsBadUtf8 netLive).2 = Except.ok s ∧
      s.outcomes.length = (scanListing fsBadUtf8.listing fsBadUtf8.size).length) := by
  have h := unreadable_file_skipped "h" fsBadUtf8 netLive 200
    { name := "bad.js", path := "main/web/bad.js", sizeBytes := 1 }
    rfl rfl rfl (by decide) rfl
  exact ⟨rfl, h.1, h.2.1, h.2.2⟩
